import Mathlib

/-!
Verification of the berryimu crate: a shallow embedding of its device
protocol layer (src/lib.rs, src/i2c.rs, src/spi.rs) and of the fusion
arithmetic in its examples, together with proofs of the specified
properties. Bus transports are modelled as mock devices (a register
response map plus a write log); machine integers are modelled as `Nat`
bit patterns with explicit reductions modulo 2^8 / 2^16 where the Rust
casts and shifts can wrap, and real-valued filter arithmetic is modelled
exactly over `ℚ`.
-/

namespace BerryIMU

/-- Error taxonomy of the crate (`Error` in src/lib.rs); transport-level
device errors are collapsed into the `device` constructor. -/
inductive Err where
  | init
  | read
  | write
  | device
deriving DecidableEq

/-- Register address constants from src/lib.rs. -/
def LSM6DSL_WHO_AM_I : Nat := 0x0F

def LSM6DSL_CTRL1_XL : Nat := 0x10

def LSM6DSL_CTRL8_XL : Nat := 0x17

def LSM6DSL_CTRL3_C : Nat := 0x12

def LSM6DSL_OUTX_L_XL : Nat := 0x28

def LIS3MDL_WHO_AM_I : Nat := 0x0F

def LIS3MDL_CTRL_REG1 : Nat := 0x20

def LIS3MDL_CTRL_REG2 : Nat := 0x21

def LIS3MDL_CTRL_REG3 : Nat := 0x22

def LIS3MDL_OUT_X_L : Nat := 0x28

/-- Per-axis combination performed by `read_axis` in src/spi.rs:
`(acc_l as u16) | ((acc_h as u16) << 8)`, then the signed branch
`if acc_combined < 32768 { acc_combined } else { acc_combined - 65536 }`.
The `% 65536` reductions model the u16 domain of the casts and the
wrapping of the 16-bit left shift. -/
def read_axis_combine (acc_l acc_h : Nat) : Int :=
  let acc_combined : Nat := (acc_l % 65536) ||| (((acc_h % 65536) <<< 8) % 65536)
  if acc_combined < 32768 then (acc_combined : Int) else (acc_combined : Int) - 65536

/-- Reinterpretation of a 16-bit pattern as a signed value, modelling the
Rust `as i32` sign extension of an i16. -/
def i16_bits_as_i32 (bits : Nat) : Int :=
  if bits % 65536 < 32768 then ((bits % 65536 : Nat) : Int)
  else ((bits % 65536 : Nat) : Int) - 65536

/-- Per-axis combination performed by `Accelerometer::read` in src/i2c.rs:
`((lo as i16) | (hi as i16) << 8) as i32`, with i16 values represented by
their 16-bit patterns (`% 256` models the u8 source of the `as i16` casts,
`% 65536` the wrapping of the i16 left shift). -/
def block_combine (lo hi : Nat) : Int :=
  i16_bits_as_i32 ((lo % 256) ||| (((hi % 256) <<< 8) % 65536))

/-- `read_block` in src/i2c.rs: the transport's returned byte block is the
input; a block whose length differs from the requested size is rejected
with `Error::Read`. -/
def read_block (block : List Nat) (size : Nat) : Except Err (List Nat) :=
  if block.length ≠ size then .error .read else .ok block

/-- `Accelerometer::read` in src/i2c.rs: one 6-byte block read starting at
`LSM6DSL_OUTX_L_XL`, combined per axis. -/
def i2c_accel_read (block : List Nat) : Except Err (Int × Int × Int) :=
  match read_block block 6 with
  | .error e => .error e
  | .ok b =>
      .ok (block_combine (b.get! 0) (b.get! 1),
           block_combine (b.get! 2) (b.get! 3),
           block_combine (b.get! 4) (b.get! 5))

/-- `Accelerometer::read` / `Gyroscope::read` in src/spi.rs applied to the
six underlying register bytes: three discrete `read_axis` combinations. -/
def spi_read_axes (b0 b1 b2 b3 b4 b5 : Nat) : Int × Int × Int :=
  (read_axis_combine b0 b1, read_axis_combine b2 b3, read_axis_combine b4 b5)

/-- Mock I2C device: SMBus register read responses plus the log of
register writes performed on it. -/
structure I2cDev where
  regs : Nat → Nat
  writes : List (Nat × Nat)

/-- `smbus_read_byte_data` on the mock device. -/
def smbus_read_byte_data (dev : I2cDev) (reg : Nat) : Nat := dev.regs reg

/-- `smbus_write_byte_data` on the mock device: appends to the write log. -/
def smbus_write_byte_data (dev : I2cDev) (reg data : Nat) : I2cDev :=
  { dev with writes := dev.writes ++ [(reg, data)] }

/-- `init` in src/i2c.rs: read the WHO_AM_I register once and compare
against the expected identity byte. -/
def i2c_init (dev : I2cDev) (who_am_i expected_response : Nat) : Except Err Unit :=
  if smbus_read_byte_data dev who_am_i = expected_response then .ok () else .error .init

/-- `Accelerometer::new` in src/i2c.rs: identity check, then the three
configuration writes (CTRL1_XL, CTRL8_XL, CTRL3_C). The second component
is the device state after the call on both paths, so that the writes
actually issued are observable even when construction fails. -/
def i2c_accel_new (dev : I2cDev) : Except Err I2cDev × I2cDev :=
  match i2c_init dev LSM6DSL_WHO_AM_I 0x6A with
  | .error e => (.error e, dev)
  | .ok _ =>
      let dev := smbus_write_byte_data dev LSM6DSL_CTRL1_XL 0b10011111
      let dev := smbus_write_byte_data dev LSM6DSL_CTRL8_XL 0b11001000
      let dev := smbus_write_byte_data dev LSM6DSL_CTRL3_C 0b01000100
      (.ok dev, dev)

/-- Mock SPI device: register read responses plus the write log. -/
structure SpiDev where
  regs : Nat → Nat
  writes : List (Nat × Nat)

/-- `read_reg` in src/spi.rs on the mock device. -/
def read_reg (dev : SpiDev) (reg_address : Nat) : Nat := dev.regs reg_address

/-- `write_reg` in src/spi.rs on the mock device: appends to the write log. -/
def write_reg (dev : SpiDev) (reg_address data : Nat) : SpiDev :=
  { dev with writes := dev.writes ++ [(reg_address, data)] }

/-- `init` in src/spi.rs: read the WHO_AM_I register once and compare
against the expected identity byte. -/
def spi_init (dev : SpiDev) (who_am_i expected_response : Nat) : Except Err Unit :=
  if read_reg dev who_am_i = expected_response then .ok () else .error .init

/-- `Accelerometer::new` in src/spi.rs: identity check against 0x6A at
`LSM6DSL_WHO_AM_I`, then the three configuration writes. -/
def spi_accel_new (dev : SpiDev) : Except Err SpiDev × SpiDev :=
  match spi_init dev LSM6DSL_WHO_AM_I 0x6A with
  | .error e => (.error e, dev)
  | .ok _ =>
      let dev := write_reg dev LSM6DSL_CTRL1_XL 0b10011111
      let dev := write_reg dev LSM6DSL_CTRL8_XL 0b11001000
      let dev := write_reg dev LSM6DSL_CTRL3_C 0b01000100
      (.ok dev, dev)

/-- `Gyroscope::new` in src/spi.rs: identity check against 0x3D at
`LIS3MDL_WHO_AM_I` (register 0x0F), then one configuration write to
CTRL2_G. The CTRL2_G register address is a parameter because the
`LSM6DSL_CTRL2_G` constant it references is not defined in the sources
at hand; no property proved here depends on its value. -/
def spi_gyro_new (ctrl2_g : Nat) (dev : SpiDev) : Except Err SpiDev × SpiDev :=
  match spi_init dev LIS3MDL_WHO_AM_I 0x3D with
  | .error e => (.error e, dev)
  | .ok _ =>
      let dev := write_reg dev ctrl2_g 0b10011100
      (.ok dev, dev)

/-- An SPI device whose every register reads as 0x6A; in particular its
WHO_AM_I register (0x0F) answers with the LSM6DSL identity 0x6A, as the
real accelerometer/gyroscope package does. -/
def lsm6dsl_device : SpiDev := ⟨fun _ => 0x6A, []⟩

/-- An I2C device whose every register reads as 0; its WHO_AM_I register
answers neither expected identity. -/
def zero_device : I2cDev := ⟨fun _ => 0, []⟩

/-- Complementary filter constant `AA` from examples/heading_on_linux_spi.rs,
modelled exactly. -/
def AA : ℚ := 40 / 100

/-- One complementary-filter blend step from examples/heading_on_linux_spi.rs:
`AA * (cf_angle + rate_gyr * elapsed) + (1.0 - AA) * acc_angle`, real
arithmetic modelled exactly over `ℚ`. -/
def cf_update (cf_angle rate_gyr elapsed acc_angle : ℚ) : ℚ :=
  AA * (cf_angle + rate_gyr * elapsed) + (1 - AA) * acc_angle

/-- Heading normalization from examples/tilt_compensating_heading_on_linux_i2c.rs:
`if heading < 0.0 { heading += 360.0 }`. -/
def normalize_heading (heading : ℚ) : ℚ :=
  if heading < 0 then heading + 360 else heading

/-- Quadrant correction of `acc_y_angle` from examples/heading_on_linux_spi.rs:
`if acc_y_angle > 90.0 { acc_y_angle -= 270.0 } else { acc_y_angle += 90.0 }`. -/
def quadrant_correct (acc_y_angle : ℚ) : ℚ :=
  if acc_y_angle > 90 then acc_y_angle - 270 else acc_y_angle + 90

lemma lor_bytes (l h : Nat) (hl : l < 256) (hh : h < 256) :
    l ||| ((h <<< 8) % 65536) = l + 256 * h := by
  have hshift : h <<< 8 = 256 * h := by
    rw [Nat.shiftLeft_eq]; ring
  have hlt : 256 * h < 65536 := by omega
  rw [hshift, Nat.mod_eq_of_lt hlt, Nat.lor_comm]
  have key := Nat.mul_add_lt_is_or (i := 8) (b := l) (a := h) (by omega)
  have h28 : (2 : Nat) ^ 8 = 256 := by norm_num
  rw [h28] at key
  omega

lemma read_axis_combine_eq (l h : Nat) (hl : l < 256) (hh : h < 256) :
    read_axis_combine l h =
      if l + 256 * h < 32768 then ((l + 256 * h : Nat) : Int)
      else ((l + 256 * h : Nat) : Int) - 65536 := by
  have h1 : l % 65536 = l := Nat.mod_eq_of_lt (by omega)
  have h2 : h % 65536 = h := Nat.mod_eq_of_lt (by omega)
  simp only [read_axis_combine, h1, h2, lor_bytes l h hl hh]

lemma block_combine_eq (l h : Nat) (hl : l < 256) (hh : h < 256) :
    block_combine l h = read_axis_combine l h := by
  have h1 : l % 256 = l := Nat.mod_eq_of_lt hl
  have h2 : h % 256 = h := Nat.mod_eq_of_lt hh
  have hbits : l ||| ((h <<< 8) % 65536) = l + 256 * h := lor_bytes l h hl hh
  have hlt : l + 256 * h < 65536 := by omega
  simp only [block_combine, i16_bits_as_i32, h1, h2, hbits,
    Nat.mod_eq_of_lt hlt, read_axis_combine_eq l h hl hh]

/-- C2: for every pair of raw bytes, `read_axis` combines them as the
unsigned 16-bit value `low + 256 * high` (the bitwise `low | (high << 8)`)
and interprets it as 16-bit two's complement: below 32768 it is returned
unchanged, otherwise 65536 is subtracted; in particular bytes (0xFF, 0x7F)
yield 32767 and (0x00, 0x80) yields -32768. -/
theorem read_axis_twos_complement (acc_l acc_h : Nat)
    (hl : acc_l < 256) (hh : acc_h < 256) :
    (acc_l + 256 * acc_h < 32768 →
      read_axis_combine acc_l acc_h = ((acc_l + 256 * acc_h : Nat) : Int)) ∧
    (32768 ≤ acc_l + 256 * acc_h →
      read_axis_combine acc_l acc_h = ((acc_l + 256 * acc_h : Nat) : Int) - 65536) ∧
    read_axis_combine 0xFF 0x7F = 32767 ∧
    read_axis_combine 0x00 0x80 = -32768 := by
  refine ⟨?_, ?_, by decide, by decide⟩
  · intro hlt
    rw [read_axis_combine_eq acc_l acc_h hl hh, if_pos hlt]
  · intro hge
    rw [read_axis_combine_eq acc_l acc_h hl hh, if_neg (by omega)]

/-- Witness for C2 at the two boundary byte pairs. -/
theorem read_axis_twos_complement_witness :
    read_axis_combine 0xFF 0x7F = 32767 ∧ read_axis_combine 0x00 0x80 = -32768 :=
  ⟨(read_axis_twos_complement 0xFF 0x7F (by decide) (by decide)).2.2.1,
   (read_axis_twos_complement 0x00 0x80 (by decide) (by decide)).2.2.2⟩

/-- C3: for every 6-byte sequence of register contents, the block-read
reconstruction of `Accelerometer::read` (i16 casts, shift, or, widened to
i32) and the discrete per-register reconstruction of `read_axis` (the
u16 combine with the < 32768 / - 65536 branch) produce the same three
signed axis values. -/
theorem block_read_discrete_read_agree (b0 b1 b2 b3 b4 b5 : Nat)
    (h0 : b0 < 256) (h1 : b1 < 256) (h2 : b2 < 256)
    (h3 : b3 < 256) (h4 : b4 < 256) (h5 : b5 < 256) :
    i2c_accel_read [b0, b1, b2, b3, b4, b5] =
      .ok (spi_read_axes b0 b1 b2 b3 b4 b5) := by
  simp only [i2c_accel_read, read_block, List.length_cons, List.length_nil,
    spi_read_axes]
  norm_num [List.get!, block_combine_eq b0 b1 h0 h1, block_combine_eq b2 b3 h2 h3,
    block_combine_eq b4 b5 h4 h5]

/-- Witness for C3 on a concrete 6-byte block. -/
theorem block_read_discrete_read_agree_witness :
    i2c_accel_read [0x00, 0x80, 0xFF, 0x7F, 0x01, 0x02] =
      .ok (spi_read_axes 0x00 0x80 0xFF 0x7F 0x01 0x02) :=
  block_read_discrete_read_agree 0x00 0x80 0xFF 0x7F 0x01 0x02
    (by decide) (by decide) (by decide) (by decide) (by decide) (by decide)

/-- C4: every block-read response with fewer than 6 bytes makes
`Accelerometer::read` return `Error::Read` and never an axis triple built
from the partial data. -/
theorem short_read_rejected (block : List Nat) (h : block.length < 6) :
    i2c_accel_read block = .error .read := by
  simp only [i2c_accel_read, read_block]
  rw [if_pos (by omega)]

/-- Witness for C4 on a concrete 3-byte block. -/
theorem short_read_rejected_witness :
    i2c_accel_read [1, 2, 3] = .error .read :=
  short_read_rejected [1, 2, 3] (by decide)

lemma i16_bits_as_i32_range (bits : Nat) :
    -32768 ≤ i16_bits_as_i32 bits ∧ i16_bits_as_i32 bits ≤ 32767 := by
  simp only [i16_bits_as_i32]
  have hm : bits % 65536 < 65536 := Nat.mod_lt _ (by omega)
  split <;> omega

lemma read_axis_combine_range (l h : Nat) :
    -32768 ≤ read_axis_combine l h ∧ read_axis_combine l h ≤ 32767 := by
  simp only [read_axis_combine]
  have hl : l % 65536 < 65536 := Nat.mod_lt _ (by omega)
  have hh : ((h % 65536) <<< 8) % 65536 < 65536 := Nat.mod_lt _ (by omega)
  have hc : (l % 65536) ||| (((h % 65536) <<< 8) % 65536) < 65536 := by
    have h16 : (65536 : Nat) = 2 ^ 16 := by norm_num
    rw [h16] at hl hh ⊢
    exact Nat.or_lt_two_pow hl hh
  split <;> omega

/-- C10: every successful read, on either bus, returns an axis triple whose
three components all lie in the 16-bit signed range [-32768, 32767], even
though they are returned as wider (i32) integers: the I2C block read's
components are in range whenever it succeeds, and the SPI discrete
combination is in range for all byte inputs. -/
theorem read_components_in_i16_range (block : List Nat) (x y z : Int)
    (h : i2c_accel_read block = .ok (x, y, z)) :
    (-32768 ≤ x ∧ x ≤ 32767) ∧ (-32768 ≤ y ∧ y ≤ 32767) ∧
    (-32768 ≤ z ∧ z ≤ 32767) ∧
    (∀ lo hi : Nat, -32768 ≤ read_axis_combine lo hi ∧
      read_axis_combine lo hi ≤ 32767) := by
  simp only [i2c_accel_read, read_block] at h
  split at h
  · simp at h
  · simp only [Except.ok.injEq, Prod.mk.injEq] at h
    obtain ⟨hx, hy, hz⟩ := h
    subst hx; subst hy; subst hz
    exact ⟨i16_bits_as_i32_range _, i16_bits_as_i32_range _,
      i16_bits_as_i32_range _, fun lo hi => read_axis_combine_range lo hi⟩

/-- Witness for C10 on a concrete successful block read. -/
theorem read_components_in_i16_range_witness :
    ((-32768 : Int) ≤ -32768 ∧ (-32768 : Int) ≤ 32767) ∧
    ((-32768 : Int) ≤ 32767 ∧ (32767 : Int) ≤ 32767) ∧
    ((-32768 : Int) ≤ 513 ∧ (513 : Int) ≤ 32767) ∧
    (∀ lo hi : Nat, -32768 ≤ read_axis_combine lo hi ∧
      read_axis_combine lo hi ≤ 32767) :=
  read_components_in_i16_range [0x00, 0x80, 0xFF, 0x7F, 0x01, 0x02]
    (-32768) 32767 513 (by rfl)

/-- C5: for every identity byte differing from the expected value 0x6A,
I2C accelerometer construction fails with `Error::Init`, issues zero
configuration register writes (the write log is unchanged), and no sensor
instance is created. -/
theorem identity_mismatch_no_writes (dev : I2cDev)
    (h : dev.regs LSM6DSL_WHO_AM_I ≠ 0x6A) :
    (i2c_accel_new dev).1 = .error .init ∧
    (i2c_accel_new dev).2.writes = dev.writes ∧
    i2c_init dev LSM6DSL_WHO_AM_I 0x6A = .error .init := by
  have hinit : i2c_init dev LSM6DSL_WHO_AM_I 0x6A = .error .init := by
    simp only [i2c_init, smbus_read_byte_data, if_neg h]
  refine ⟨?_, ?_, hinit⟩ <;> simp only [i2c_accel_new, hinit]

/-- Witness for C5 on a device answering 0 at every register. -/
theorem identity_mismatch_no_writes_witness :
    (i2c_accel_new zero_device).1 = .error .init ∧
    (i2c_accel_new zero_device).2.writes = zero_device.writes ∧
    i2c_init zero_device LSM6DSL_WHO_AM_I 0x6A = .error .init :=
  identity_mismatch_no_writes zero_device (by decide)

/-- C1: the claim fails on the code. Both SPI constructors read the same
identity register (`LSM6DSL_WHO_AM_I = LIS3MDL_WHO_AM_I = 0x0F`), but they
compare it against different expected values: on a device whose WHO_AM_I
register returns the LSM6DSL identity 0x6A, `Accelerometer::new` succeeds
while `Gyroscope::new` (which expects 0x3D, the magnetometer identity)
fails with `Error::Init` and performs no configuration write, whatever the
CTRL2_G address is. -/
theorem gyro_accel_identity_divergence :
    LSM6DSL_WHO_AM_I = LIS3MDL_WHO_AM_I ∧
    (∃ d, (spi_accel_new lsm6dsl_device).1 = .ok d) ∧
    (∀ ctrl2_g : Nat,
      (spi_gyro_new ctrl2_g lsm6dsl_device).1 = .error .init ∧
      (spi_gyro_new ctrl2_g lsm6dsl_device).2.writes = []) := by
  exact ⟨rfl, ⟨_, rfl⟩, fun ctrl2_g => ⟨rfl, rfl⟩⟩

/-- C6: with gyro rate 0 and the accelerometer angle equal to the previous
blended angle, the complementary-filter update returns the previous angle
exactly (fixed point), for the blend constant `AA = 0.40`. -/
theorem cf_update_fixed_point (p elapsed : ℚ) :
    cf_update p 0 elapsed p = p := by
  simp only [cf_update, AA]
  ring

/-- C7: the heading normalization adds 360 to values in [-180, 0), landing
in [180, 360); leaves values in [0, 180] unchanged; hence the emitted
heading always lies in [0, 360). -/
theorem heading_normalization (heading : ℚ)
    (hlo : -180 ≤ heading) (hhi : heading ≤ 180) :
    (heading < 0 → normalize_heading heading = heading + 360 ∧
      180 ≤ normalize_heading heading ∧ normalize_heading heading < 360) ∧
    (0 ≤ heading → normalize_heading heading = heading) ∧
    (0 ≤ normalize_heading heading ∧ normalize_heading heading < 360) := by
  unfold normalize_heading
  split_ifs with hneg
  · exact ⟨fun _ => ⟨rfl, by linarith, by linarith⟩,
      fun hge => absurd hge (not_le.mpr hneg), by linarith, by linarith⟩
  · exact ⟨fun hlt => absurd hlt hneg, fun _ => rfl,
      by linarith [not_lt.mp hneg], by linarith⟩

/-- Witness for C7 at heading -90. -/
theorem heading_normalization_witness :
    ((-90 : ℚ) < 0 → normalize_heading (-90) = -90 + 360 ∧
      180 ≤ normalize_heading (-90) ∧ normalize_heading (-90) < 360) ∧
    ((0 : ℚ) ≤ -90 → normalize_heading (-90) = -90) ∧
    (0 ≤ normalize_heading (-90) ∧ normalize_heading (-90) < 360) :=
  heading_normalization (-90) (by norm_num) (by norm_num)

/-- C8: the quadrant correction of the roll-like axis subtracts 270 when
the raw angle exceeds 90 and adds 90 otherwise, and on the whole raw range
(0, 360] of `180 * (atan2 + pi) / pi` (which contains the claimed (0, 180))
the corrected value lies in (-180, 180]. -/
theorem quadrant_correction_range (a : ℚ) (h1 : 0 < a) (h2 : a ≤ 360) :
    (90 < a → quadrant_correct a = a - 270) ∧
    (a ≤ 90 → quadrant_correct a = a + 90) ∧
    (-180 < quadrant_correct a ∧ quadrant_correct a ≤ 180) := by
  unfold quadrant_correct
  split_ifs with hgt
  · exact ⟨fun _ => rfl, fun hle => absurd hgt (not_lt.mpr hle),
      by linarith, by linarith⟩
  · exact ⟨fun hlt => absurd hlt hgt, fun _ => rfl,
      by linarith, by linarith [not_lt.mp hgt]⟩

/-- Witness for C8 at angle 45. -/
theorem quadrant_correction_range_witness :
    ((90 : ℚ) < 45 → quadrant_correct 45 = 45 - 270) ∧
    ((45 : ℚ) ≤ 90 → quadrant_correct 45 = 45 + 90) ∧
    (-180 < quadrant_correct 45 ∧ quadrant_correct 45 ≤ 180) :=
  quadrant_correction_range 45 (by norm_num) (by norm_num)

end BerryIMU
